import Mathlib

/-!
Verification of the NutriGuard crop-yield estimator (`src/ai_services.py`,
class `CropPredictor`).

Numeric values (Python floats in the source) are modelled as rationals (ℚ),
time stamps as rationals, and the Python `round(x, n)` as exact round-half-to-
even on rationals scaled by `10^n`.  Python dictionaries whose fields may be
absent (`dict.get` with a default) are modelled as structures with `Option`
fields.  The external advisory call (OpenAI chat completion) is modelled by
an oracle value describing its outcome: the call raised, the reply could not
be parsed into a JSON object, or a parsed analysis record was obtained.
-/

namespace NutriGuard

/-- Round-half-to-even on rationals, the semantics of the Python built-in
`round` applied to an exact decimal value. -/
def roundHalfEven (x : ℚ) : ℤ :=
  let f : ℤ := ⌊x⌋
  let r : ℚ := x - f
  if r < 1/2 then f
  else if 1/2 < r then f + 1
  else if Even f then f else f + 1

/-- the Python `round(x, ndigits)` on an exact rational value. -/
def pyRound (ndigits : ℕ) (x : ℚ) : ℚ :=
  (roundHalfEven (x * 10 ^ ndigits) : ℚ) / 10 ^ ndigits

/-- One entry of the static crop knowledge base `CropPredictor.crop_data`. -/
structure CropInfo where
  optimalPhLow : ℚ
  optimalPhHigh : ℚ
  optimalRainfallLow : ℚ
  optimalRainfallHigh : ℚ
  growingSeason : ℕ
  yieldMin : ℚ
  yieldMax : ℚ
deriving DecidableEq

/-- The crop knowledge base `self.crop_data` from `CropPredictor.__init__`. -/
def cropData (cropType : String) : Option CropInfo :=
  if cropType = "maize" then some ⟨6, 7, 500, 1200, 120, 2, 8⟩
  else if cropType = "rice" then some ⟨11/2, 7, 1000, 2000, 150, 3, 10⟩
  else if cropType = "wheat" then some ⟨6, 15/2, 300, 800, 180, 2, 6⟩
  else if cropType = "beans" then some ⟨6, 7, 400, 800, 90, 1, 3⟩
  else if cropType = "sweet_potato" then some ⟨29/5, 31/5, 600, 1000, 120, 8, 25⟩
  else none

/-- Soil observation dictionary; fields read with `dict.get` defaults are
`Option`-valued. `type` and `organic_matter` only feed the prompt text and
the cache key. -/
structure SoilData where
  ph : Option ℚ
  soilType : Option String
  organicMatter : Option String
deriving DecidableEq

/-- Weather observation dictionary. -/
structure WeatherData where
  expectedRainfall : Option ℚ
  temperatureRange : Option String
deriving DecidableEq

/-- Embeds `CropPredictor._calculate_ph_suitability`. -/
def calculatePhSuitability (actualPh : ℚ) (optimalRange : ℚ × ℚ) : ℚ :=
  let minPh := optimalRange.1
  let maxPh := optimalRange.2
  if minPh ≤ actualPh ∧ actualPh ≤ maxPh then 1
  else if actualPh < minPh then max 0 (1 - (minPh - actualPh) / 2)
  else max 0 (1 - (actualPh - maxPh) / 2)

/-- Embeds `CropPredictor._calculate_rainfall_suitability`. -/
def calculateRainfallSuitability (actualRainfall : ℚ) (optimalRange : ℚ × ℚ) : ℚ :=
  let minRainfall := optimalRange.1
  let maxRainfall := optimalRange.2
  if minRainfall ≤ actualRainfall ∧ actualRainfall ≤ maxRainfall then 1
  else if actualRainfall < minRainfall then max 0 (actualRainfall / minRainfall)
  else max 0 (1 - (actualRainfall - maxRainfall) / maxRainfall)

/-- The dictionary returned by `_get_baseline_prediction` (and by
`_get_generic_prediction`). -/
structure BaselinePrediction where
  predictedYieldTonsPerHectare : ℚ
  confidence : ℚ
  phSuitability : ℚ
  rainfallSuitability : ℚ
  growingSeasonDays : ℕ
deriving DecidableEq

/-- Embeds `CropPredictor._get_generic_prediction`. -/
def getGenericPrediction : BaselinePrediction :=
  ⟨2, 30, 50, 50, 120⟩

/-- The unrounded baseline yield `min_yield + (max_yield - min_yield) *
overall_score` computed inside `_get_baseline_prediction` for a known crop. -/
def rawBaselineYield (info : CropInfo) (soil : SoilData) (weather : WeatherData) : ℚ :=
  let phScore := calculatePhSuitability (soil.ph.getD (13/2))
    (info.optimalPhLow, info.optimalPhHigh)
  let rainfallScore := calculateRainfallSuitability (weather.expectedRainfall.getD 800)
    (info.optimalRainfallLow, info.optimalRainfallHigh)
  let overallScore := (phScore + rainfallScore) / 2
  info.yieldMin + (info.yieldMax - info.yieldMin) * overallScore

/-- Embeds `CropPredictor._get_baseline_prediction`. -/
def getBaselinePrediction (cropType : String) (soil : SoilData)
    (weather : WeatherData) : BaselinePrediction :=
  match cropData cropType with
  | none => getGenericPrediction
  | some info =>
    let phScore := calculatePhSuitability (soil.ph.getD (13/2))
      (info.optimalPhLow, info.optimalPhHigh)
    let rainfallScore := calculateRainfallSuitability (weather.expectedRainfall.getD 800)
      (info.optimalRainfallLow, info.optimalRainfallHigh)
    let overallScore := (phScore + rainfallScore) / 2
    let predictedYield := info.yieldMin + (info.yieldMax - info.yieldMin) * overallScore
    { predictedYieldTonsPerHectare := pyRound 2 predictedYield
      confidence := pyRound 1 (overallScore * 100)
      phSuitability := pyRound 1 (phScore * 100)
      rainfallSuitability := pyRound 1 (rainfallScore * 100)
      growingSeasonDays := info.growingSeason }

/-- The JSON object parsed out of the advisory reply.  Every field the code
reads with `.get(key, default)` is `Option`-valued, since the parsed JSON
may omit it. -/
structure AiAnalysis where
  aiYieldPrediction : Option ℚ
  riskFactors : Option (List String)
  recommendations : Option (List String)
  plantingTime : Option String
  confidence : Option ℚ
  marketConsiderations : Option (List String)
deriving DecidableEq

/-- Embeds `CropPredictor._get_fallback_ai_analysis`. -/
def getFallbackAiAnalysis : AiAnalysis :=
  { aiYieldPrediction := some 0
    riskFactors := some ["Weather uncertainty", "Soil conditions"]
    recommendations := some ["Consult local agricultural extension officer"]
    plantingTime := some "Follow local seasonal patterns"
    confidence := some 50
    marketConsiderations := some ["Monitor local market prices"] }

/-- Outcome of the external advisory call: the HTTP/SDK call raised an
exception, or it returned text whose JSON extraction either failed
(`replied none`) or produced an analysis object (`replied (some a)`). -/
inductive AdvisoryOutcome where
  | callFailed : AdvisoryOutcome
  | replied : Option AiAnalysis → AdvisoryOutcome
deriving DecidableEq

/-- Embeds `CropPredictor._get_ai_crop_analysis` composed with
`_parse_ai_response`: any call failure or unparseable reply degrades to the
fallback analysis. -/
def getAiCropAnalysis (outcome : AdvisoryOutcome) : AiAnalysis :=
  match outcome with
  | .callFailed => getFallbackAiAnalysis
  | .replied none => getFallbackAiAnalysis
  | .replied (some a) => a

/-- The dictionary returned by `_combine_predictions`. `predictionDate`
models the `datetime.now().isoformat()` stamp as the current time. -/
structure PredictionResult where
  yieldPerHectare : ℚ
  totalProductionTons : ℚ
  confidenceScore : ℚ
  farmSizeHectares : ℚ
  riskFactors : List String
  recommendations : List String
  plantingTime : String
  marketConsiderations : List String
  baselineAnalysis : BaselinePrediction
  predictionDate : ℚ
deriving DecidableEq

/-- Embeds `CropPredictor._combine_predictions`. -/
def combinePredictions (baseline : BaselinePrediction) (aiAnalysis : AiAnalysis)
    (farmSize : ℚ) (now : ℚ) : PredictionResult :=
  let baselineYield := baseline.predictedYieldTonsPerHectare
  let aiYield := aiAnalysis.aiYieldPrediction.getD baselineYield
  let combinedYield := (7/10) * baselineYield + (3/10) * aiYield
  let totalProduction := combinedYield * farmSize
  let baselineConfidence := baseline.confidence
  let aiConfidence := aiAnalysis.confidence.getD 50
  let combinedConfidence := (baselineConfidence + aiConfidence) / 2
  { yieldPerHectare := pyRound 2 combinedYield
    totalProductionTons := pyRound 2 totalProduction
    confidenceScore := pyRound 1 combinedConfidence
    farmSizeHectares := farmSize
    riskFactors := aiAnalysis.riskFactors.getD []
    recommendations := aiAnalysis.recommendations.getD []
    plantingTime := aiAnalysis.plantingTime.getD "Consult local experts"
    marketConsiderations := aiAnalysis.marketConsiderations.getD []
    baselineAnalysis := baseline
    predictionDate := now }

/-- The cache key of `_generate_prediction_cache_key`: an MD5 digest of the
string rendering of `(crop_type, location, sorted soil items, sorted weather
items)`.  The digest is modelled by the tuple it is computed from (the spec
assumes the derivation collision-free); `farm_size` is not part of it. -/
structure CacheKey where
  cropType : String
  location : String
  soil : SoilData
  weather : WeatherData
deriving DecidableEq

/-- The in-memory cache `self.cache`: a mapping from keys to
`(result, insertion timestamp)` pairs, modelled as an association list
without duplicate keys. -/
def Cache : Type := List (CacheKey × PredictionResult × ℚ)

instance : DecidableEq Cache := by unfold Cache; exact inferInstance

/-- Python `self.cache[key]` lookup (Option-valued). -/
def cacheFind (cache : Cache) (key : CacheKey) : Option (PredictionResult × ℚ) :=
  (cache.find? (fun entry => entry.1 = key)).map (·.2)

/-- Python `del self.cache[key]`. -/
def cacheDelete (cache : Cache) (key : CacheKey) : Cache :=
  cache.filter (fun entry => ¬ entry.1 = key)

/-- Mutable state of a `CropPredictor`: its cache and the TTL constant. -/
structure PredictorState where
  cache : Cache
  cacheTtl : ℚ
deriving DecidableEq

/-- Embeds `CropPredictor.__init__`: empty cache, TTL 7200 seconds. -/
def initState : PredictorState := ⟨[], 7200⟩

/-- Embeds `CropPredictor._get_from_cache`: a present, non-expired entry is
returned and the cache is untouched; a present but expired entry is deleted
and `None` is returned; an absent key returns `None`. -/
def getFromCache (st : PredictorState) (key : CacheKey) (now : ℚ) :
    Option PredictionResult × PredictorState :=
  match cacheFind st.cache key with
  | some (result, timestamp) =>
    if now - timestamp < st.cacheTtl then (some result, st)
    else (none, { st with cache := cacheDelete st.cache key })
  | none => (none, st)

/-- Embeds `CropPredictor._cache_result`: store `(result, now)` under `key`,
overwriting any prior entry. -/
def cacheResult (st : PredictorState) (key : CacheKey) (result : PredictionResult)
    (now : ℚ) : PredictorState :=
  { st with cache := (key, result, now) :: cacheDelete st.cache key }

/-- A `predict_yield` request: the four arguments that form the cache key. -/
structure PredictionInput where
  cropType : String
  location : String
  soil : SoilData
  weather : WeatherData
deriving DecidableEq

def cacheKeyOf (input : PredictionInput) : CacheKey :=
  ⟨input.cropType, input.location, input.soil, input.weather⟩

/-- The body of `CropPredictor.predict_yield` (inside its `try`): cache
lookup, baseline, advisory enhancement, blending, cache store.  Returns the
result, the successor state, and the number of external advisory calls
attempted (0 on a cache hit, 1 on a miss). -/
def predictYieldBody (st : PredictorState) (input : PredictionInput)
    (farmSize : ℚ) (advisory : AdvisoryOutcome) (now : ℚ) :
    PredictionResult × PredictorState × ℕ :=
  let key := cacheKeyOf input
  match getFromCache st key now with
  | (some cached, st') => (cached, st', 0)
  | (none, st') =>
    let baseline := getBaselinePrediction input.cropType input.soil input.weather
    let aiAnalysis := getAiCropAnalysis advisory
    let result := combinePredictions baseline aiAnalysis farmSize now
    (result, cacheResult st' key result now, 1)

/-- The exception type raised by the service (`class AIServiceError`). -/
structure AIServiceError where
  message : String
deriving DecidableEq

/-- The `try`/`except` wrapper of `predict_yield` (lines 287-289): a normal
body outcome passes through, any exception escaping the body is re-raised
as `AIServiceError` with a prefixed message. -/
def wrapPredictionErrors {α : Type} (body : Except String α) :
    Except AIServiceError α :=
  match body with
  | .ok a => .ok a
  | .error e => .error ⟨"Crop prediction failed: " ++ e⟩

/-- Embeds `CropPredictor.predict_yield`.  The embedded body is total (every
operation it performs is), so the wrapper always receives a normal
outcome. -/
def predictYield (st : PredictorState) (input : PredictionInput)
    (farmSize : ℚ) (advisory : AdvisoryOutcome) (now : ℚ) :
    Except AIServiceError PredictionResult × PredictorState × ℕ :=
  let (result, st', calls) := predictYieldBody st input farmSize advisory now
  (wrapPredictionErrors (.ok result), st', calls)

/-- Reference pipeline following the words of the specification, for the
refinement comparison only: rounding is "pure cosmetic rounding, not used
internally for further math", so the blend is taken over the unrounded
baseline yield and rounded once, at presentation. -/
def specFinalYield (info : CropInfo) (soil : SoilData) (weather : WeatherData)
    (aiYield : ℚ) : ℚ :=
  pyRound 2 ((7/10) * rawBaselineYield info soil weather + (3/10) * aiYield)

end NutriGuard

namespace NutriGuard

/-- Helper: round-half-to-even returns the floor when the fractional part
is below one half. -/
theorem roundHalfEven_eq_of_lt_half (x : ℚ) (k : ℤ) (h1 : (k : ℚ) ≤ x)
    (h2 : x < (k : ℚ) + 1/2) : roundHalfEven x = k := by
  have hf : ⌊x⌋ = k := Int.floor_eq_iff.mpr ⟨h1, by linarith⟩
  simp only [roundHalfEven, hf]
  rw [if_pos (by linarith)]

/-- Helper: round-half-to-even returns the ceiling when the fractional part
is above one half. -/
theorem roundHalfEven_eq_of_gt_half (x : ℚ) (k : ℤ) (h1 : (k : ℚ) + 1/2 < x)
    (h2 : x < (k : ℚ) + 1) : roundHalfEven x = k + 1 := by
  have hf : ⌊x⌋ = k := Int.floor_eq_iff.mpr ⟨by linarith, by linarith⟩
  simp only [roundHalfEven, hf]
  rw [if_neg (by linarith), if_pos (by linarith)]

/-- Helper: evaluation of `pyRound` when the scaled value sits strictly
below the half-way point. -/
theorem pyRound_eq_of_lt_half (n : ℕ) (x : ℚ) (k : ℤ)
    (h1 : (k : ℚ) ≤ x * 10 ^ n) (h2 : x * 10 ^ n < (k : ℚ) + 1/2) :
    pyRound n x = (k : ℚ) / 10 ^ n := by
  unfold pyRound
  rw [roundHalfEven_eq_of_lt_half (x * 10 ^ n) k h1 h2]

/-- Helper: evaluation of `pyRound` when the scaled value sits strictly
above the half-way point. -/
theorem pyRound_eq_of_gt_half (n : ℕ) (x : ℚ) (k : ℤ)
    (h1 : (k : ℚ) + 1/2 < x * 10 ^ n) (h2 : x * 10 ^ n < (k : ℚ) + 1) :
    pyRound n x = ((k : ℚ) + 1) / 10 ^ n := by
  unfold pyRound
  rw [roundHalfEven_eq_of_gt_half (x * 10 ^ n) k h1 h2]
  push_cast
  ring

/-- C4: for a crop with optimal pH range `[low, high]`, the pH suitability
score is 1 inside the range (inclusive), `max 0 (1 - (low - observed)/2)`
below it, `max 0 (1 - (observed - high)/2)` above it, and exactly 0 at
`observed = low - 2`. -/
theorem phSuitability_spec (low high ph : ℚ) (hrange : low ≤ high) :
    (low ≤ ph ∧ ph ≤ high → calculatePhSuitability ph (low, high) = 1) ∧
    (ph < low → calculatePhSuitability ph (low, high) = max 0 (1 - (low - ph) / 2)) ∧
    (high < ph → calculatePhSuitability ph (low, high) = max 0 (1 - (ph - high) / 2)) ∧
    calculatePhSuitability (low - 2) (low, high) = 0 := by
  simp only [calculatePhSuitability]
  refine ⟨fun h => by rw [if_pos h], fun h => ?_, fun h => ?_, ?_⟩
  · rw [if_neg (by rintro ⟨h1, -⟩; linarith), if_pos h]
  · rw [if_neg (by rintro ⟨-, h2⟩; linarith), if_neg (by linarith)]
  · rw [if_neg (by rintro ⟨h1, -⟩; linarith), if_pos (by linarith)]
    norm_num

/-- Witness for `phSuitability_spec` at the maize range and an in-range pH. -/
theorem phSuitability_spec_witness :
    calculatePhSuitability (13/2) (6, 7) = 1 :=
  (phSuitability_spec 6 7 (13/2) (by norm_num)).1 (by norm_num)

/-- C5: for a crop with optimal rainfall range `[low, high]` (all crops in
the reference table have `0 < low ≤ high`), the rainfall suitability score
is 1 inside the range, `max 0 (observed/low)` below it,
`max 0 (1 - (observed - high)/high)` above it, and exactly 0 at observed
rainfall 0. -/
theorem rainfallSuitability_spec (low high r : ℚ) (hrange : low ≤ high)
    (hpos : 0 < low) :
    (low ≤ r ∧ r ≤ high → calculateRainfallSuitability r (low, high) = 1) ∧
    (r < low → calculateRainfallSuitability r (low, high) = max 0 (r / low)) ∧
    (high < r → calculateRainfallSuitability r (low, high) = max 0 (1 - (r - high) / high)) ∧
    calculateRainfallSuitability 0 (low, high) = 0 := by
  simp only [calculateRainfallSuitability]
  refine ⟨fun h => by rw [if_pos h], fun h => ?_, fun h => ?_, ?_⟩
  · rw [if_neg (by rintro ⟨h1, -⟩; linarith), if_pos h]
  · rw [if_neg (by rintro ⟨-, h2⟩; linarith), if_neg (by linarith)]
  · rw [if_neg (by rintro ⟨h1, -⟩; linarith), if_pos hpos]
    simp

/-- Witness for `rainfallSuitability_spec` at the maize range, observed
rainfall 400 (below the optimum). -/
theorem rainfallSuitability_spec_witness :
    calculateRainfallSuitability 400 (500, 1200) = max 0 (400 / 500) :=
  (rainfallSuitability_spec 500 1200 400 (by norm_num) (by norm_num)).2.1
    (by norm_num)

/-- C6: an unknown crop identifier gives the fixed generic baseline
(yield 2.0, confidence 30.0, pH suitability 50.0, rainfall suitability
50.0, growing season 120 days), whatever the soil and weather inputs. -/
theorem unknownCrop_genericBaseline (cropType : String) (soil : SoilData)
    (weather : WeatherData) (h : cropData cropType = none) :
    getBaselinePrediction cropType soil weather = getGenericPrediction ∧
    getGenericPrediction =
      { predictedYieldTonsPerHectare := 2, confidence := 30, phSuitability := 50,
        rainfallSuitability := 50, growingSeasonDays := 120 } := by
  unfold getBaselinePrediction
  rw [h]
  exact ⟨rfl, rfl⟩

/-- Witness for `unknownCrop_genericBaseline` at the crop "dragonfruit". -/
theorem unknownCrop_genericBaseline_witness :
    getBaselinePrediction "dragonfruit" ⟨some 3, none, none⟩ ⟨some 9999, none⟩ =
      getGenericPrediction :=
  (unknownCrop_genericBaseline "dragonfruit" ⟨some 3, none, none⟩
    ⟨some 9999, none⟩ (by decide)).1

/-- C3: blending a baseline with an advisory result that carries all its
fields gives final yield `0.7 * baseline_yield + 0.3 * advisory_yield`,
final confidence the arithmetic mean of the two confidences, total
production `final yield * farm size` (each reported after the presentation
rounding of the source), and takes risk factors, recommendations, planting
time and market notes directly from the advisory result. -/
theorem combinePredictions_spec (baseline : BaselinePrediction)
    (aiAnalysis : AiAnalysis) (farmSize now a c : ℚ)
    (rf recs mkt : List String) (pt : String)
    (ha : aiAnalysis.aiYieldPrediction = some a)
    (hc : aiAnalysis.confidence = some c)
    (hrf : aiAnalysis.riskFactors = some rf)
    (hrec : aiAnalysis.recommendations = some recs)
    (hpt : aiAnalysis.plantingTime = some pt)
    (hmkt : aiAnalysis.marketConsiderations = some mkt) :
    (combinePredictions baseline aiAnalysis farmSize now).yieldPerHectare =
      pyRound 2 ((7/10) * baseline.predictedYieldTonsPerHectare + (3/10) * a) ∧
    (combinePredictions baseline aiAnalysis farmSize now).confidenceScore =
      pyRound 1 ((baseline.confidence + c) / 2) ∧
    (combinePredictions baseline aiAnalysis farmSize now).totalProductionTons =
      pyRound 2 (((7/10) * baseline.predictedYieldTonsPerHectare + (3/10) * a) * farmSize) ∧
    (combinePredictions baseline aiAnalysis farmSize now).riskFactors = rf ∧
    (combinePredictions baseline aiAnalysis farmSize now).recommendations = recs ∧
    (combinePredictions baseline aiAnalysis farmSize now).plantingTime = pt ∧
    (combinePredictions baseline aiAnalysis farmSize now).marketConsiderations = mkt := by
  simp [combinePredictions, ha, hc, hrf, hrec, hpt, hmkt]

/-- Witness for `combinePredictions_spec` on a concrete baseline and a fully
populated advisory analysis. -/
theorem combinePredictions_spec_witness :
    (combinePredictions ⟨8, 100, 100, 100, 120⟩
      ⟨some 4, some ["r"], some ["o"], some "March", some 80, some ["m"]⟩
      2 0).yieldPerHectare = pyRound 2 ((7/10) * 8 + (3/10) * 4) :=
  (combinePredictions_spec ⟨8, 100, 100, 100, 120⟩
    ⟨some 4, some ["r"], some ["o"], some "March", some 80, some ["m"]⟩
    2 0 4 80 ["r"] ["o"] ["m"] "March" rfl rfl rfl rfl rfl rfl).1

/-- C1 counterexample: for maize under ideal conditions the baseline yield
is 8.0, yet with a failed advisory call the final yield is 5.6, not the
baseline unmodified — because the fallback advisory carries
`ai_yield_prediction = 0`, not the baseline yield. -/
theorem fallbackYield_counterexample :
    (getBaselinePrediction "maize" ⟨some (13/2), none, none⟩
      ⟨some 800, none⟩).predictedYieldTonsPerHectare = 8 ∧
    getFallbackAiAnalysis.aiYieldPrediction = some 0 ∧
    (predictYieldBody initState
      ⟨"maize", "Nairobi", ⟨some (13/2), none, none⟩, ⟨some 800, none⟩⟩
      1 .callFailed 0).1.yieldPerHectare = 28/5 ∧
    (28/5 : ℚ) ≠ 8 := by
  have h8 : pyRound 2 8 = 8 := by
    rw [pyRound_eq_of_lt_half 2 8 800 (by norm_num) (by norm_num)]
    norm_num
  have h100 : pyRound 1 100 = 100 := by
    rw [pyRound_eq_of_lt_half 1 100 1000 (by norm_num) (by norm_num)]
    norm_num
  have h56 : pyRound 2 (28/5) = 28/5 := by
    rw [pyRound_eq_of_lt_half 2 (28/5) 560 (by norm_num) (by norm_num)]
    norm_num
  have hbase : getBaselinePrediction "maize" ⟨some (13/2), none, none⟩
      ⟨some 800, none⟩ = ⟨8, 100, 100, 100, 120⟩ := by
    simp only [getBaselinePrediction, cropData]
    norm_num [calculatePhSuitability, calculateRainfallSuitability, h8, h100]
  refine ⟨by rw [hbase], rfl, ?_, by norm_num⟩
  simp only [predictYieldBody, getFromCache, cacheFind, initState, cacheKeyOf,
    getAiCropAnalysis, List.find?_nil, Option.map_none]
  rw [hbase]
  simp only [combinePredictions, getFallbackAiAnalysis, Option.getD_some]
  norm_num [h56]

/-- C1 (amended): when the advisory call fails, the substituted fallback
advisory has yield 0 (not the baseline yield), confidence 50, risk factors
`["Weather uncertainty", "Soil conditions"]`, recommendations
`["Consult local agricultural extension officer"]`, planting time
`"Follow local seasonal patterns"` and market notes
`["Monitor local market prices"]`; consequently the final blended yield of
a fresh predictor is `round(0.7 * baseline yield, 2)` — 70% of the
baseline yield — and the final confidence is the mean of the baseline
confidence and 50. -/
theorem fallbackYield_seventyPercent (input : PredictionInput)
    (farmSize now : ℚ) :
    getFallbackAiAnalysis.aiYieldPrediction = some 0 ∧
    getFallbackAiAnalysis.confidence = some 50 ∧
    (predictYieldBody initState input farmSize .callFailed now).1.riskFactors =
      ["Weather uncertainty", "Soil conditions"] ∧
    (predictYieldBody initState input farmSize .callFailed now).1.recommendations =
      ["Consult local agricultural extension officer"] ∧
    (predictYieldBody initState input farmSize .callFailed now).1.plantingTime =
      "Follow local seasonal patterns" ∧
    (predictYieldBody initState input farmSize .callFailed now).1.marketConsiderations =
      ["Monitor local market prices"] ∧
    (predictYieldBody initState input farmSize .callFailed now).1.yieldPerHectare =
      pyRound 2 ((7/10) * (getBaselinePrediction input.cropType input.soil
        input.weather).predictedYieldTonsPerHectare) ∧
    (predictYieldBody initState input farmSize .callFailed now).1.confidenceScore =
      pyRound 1 (((getBaselinePrediction input.cropType input.soil
        input.weather).confidence + 50) / 2) := by
  simp [predictYieldBody, getFromCache, cacheFind, initState, cacheKeyOf,
    getAiCropAnalysis, getFallbackAiAnalysis, combinePredictions]

/-- C2: for every state, input, advisory outcome (including a failed call
and an unparseable reply) and time, `predict_yield` returns a normal
`PredictionResult` — no exception reaches the caller; and the only raising
path, the `except` clause of `predict_yield`, converts any internal fault
into the distinct `AIServiceError` exception. -/
theorem predictYield_neverRaises (st : PredictorState) (input : PredictionInput)
    (farmSize : ℚ) (advisory : AdvisoryOutcome) (now : ℚ) :
    ((predictYield st input farmSize advisory now).1 =
      Except.ok (predictYieldBody st input farmSize advisory now).1) ∧
    (∀ e : String,
      wrapPredictionErrors (Except.error e : Except String PredictionResult) =
        Except.error ⟨"Crop prediction failed: " ++ e⟩) := by
  constructor
  · rcases h : predictYieldBody st input farmSize advisory now with ⟨r, st2, n⟩
    simp [predictYield, h, wrapPredictionErrors]
  · intro e
    rfl

/-- C10: for a known crop, a soil observation with no pH field is treated
as pH 6.5 and a weather observation with no expected-rainfall field as
800 mm, and `predict_yield` still returns a normal result on such inputs. -/
theorem missingFields_defaults (cropType : String) (info : CropInfo)
    (soilType om tr : Option String) (location : String)
    (farmSize now : ℚ) (advisory : AdvisoryOutcome) (st : PredictorState)
    (h : cropData cropType = some info) :
    (∀ weather : WeatherData,
      getBaselinePrediction cropType ⟨none, soilType, om⟩ weather =
        getBaselinePrediction cropType ⟨some (13/2), soilType, om⟩ weather) ∧
    (∀ soil : SoilData,
      getBaselinePrediction cropType soil ⟨none, tr⟩ =
        getBaselinePrediction cropType soil ⟨some 800, tr⟩) ∧
    (∃ r, (predictYield st ⟨cropType, location, ⟨none, soilType, om⟩, ⟨none, tr⟩⟩
      farmSize advisory now).1 = Except.ok r) := by
  refine ⟨fun weather => ?_, fun soil => ?_, ?_⟩
  · unfold getBaselinePrediction
    rw [h]
    rfl
  · unfold getBaselinePrediction
    rw [h]
    rfl
  · rcases hb : predictYieldBody st
      ⟨cropType, location, ⟨none, soilType, om⟩, ⟨none, tr⟩⟩ farmSize advisory now
      with ⟨r, st2, n⟩
    exact ⟨r, by simp [predictYield, hb, wrapPredictionErrors]⟩

/-- Witness for `missingFields_defaults` at the crop "maize". -/
theorem missingFields_defaults_witness :
    getBaselinePrediction "maize" ⟨none, none, none⟩ ⟨some 700, none⟩ =
      getBaselinePrediction "maize" ⟨some (13/2), none, none⟩ ⟨some 700, none⟩ :=
  (missingFields_defaults "maize" ⟨6, 7, 500, 1200, 120, 2, 8⟩ none none none
    "Nairobi" 1 0 .callFailed initState (by decide)).1 ⟨some 700, none⟩

/-- C7: starting from a fresh predictor, a second `predict_yield` call with
identical inputs issued while the first cache entry is within the TTL
window returns the first result verbatim, leaves the state untouched (no
cache write) and performs no external advisory call (regardless of what
the advisory service would answer). -/
theorem cacheHit_idempotent (input : PredictionInput) (farmSize : ℚ)
    (adv1 adv2 : AdvisoryOutcome) (t0 t1 : ℚ) (h : t1 - t0 < 7200) :
    (predictYieldBody (predictYieldBody initState input farmSize adv1 t0).2.1
        input farmSize adv2 t1).1 =
      (predictYieldBody initState input farmSize adv1 t0).1 ∧
    (predictYieldBody (predictYieldBody initState input farmSize adv1 t0).2.1
        input farmSize adv2 t1).2.1 =
      (predictYieldBody initState input farmSize adv1 t0).2.1 ∧
    (predictYieldBody (predictYieldBody initState input farmSize adv1 t0).2.1
        input farmSize adv2 t1).2.2 = 0 := by
  have h1 : predictYieldBody initState input farmSize adv1 t0 =
      (combinePredictions (getBaselinePrediction input.cropType input.soil
          input.weather) (getAiCropAnalysis adv1) farmSize t0,
        ⟨[(cacheKeyOf input,
            combinePredictions (getBaselinePrediction input.cropType input.soil
              input.weather) (getAiCropAnalysis adv1) farmSize t0, t0)], 7200⟩, 1) := by
    simp [predictYieldBody, getFromCache, cacheFind, initState, cacheResult,
      cacheDelete]
  rw [h1]
  simp only [predictYieldBody, getFromCache, cacheFind, List.find?_cons,
    decide_eq_true_eq]
  simp [h]

/-- Witness for `cacheHit_idempotent`: the second call 100 seconds after
the first performs no external advisory call. -/
theorem cacheHit_idempotent_witness :
    (predictYieldBody (predictYieldBody initState
        ⟨"maize", "Nairobi", ⟨some (13/2), none, none⟩, ⟨some 800, none⟩⟩
        1 .callFailed 0).2.1
      ⟨"maize", "Nairobi", ⟨some (13/2), none, none⟩, ⟨some 800, none⟩⟩
      1 (.replied none) 100).2.2 = 0 :=
  (cacheHit_idempotent
    ⟨"maize", "Nairobi", ⟨some (13/2), none, none⟩, ⟨some 800, none⟩⟩
    1 .callFailed (.replied none) 0 100 (by norm_num)).2.2

/-- C8: an entry stored at time `T` is a hit exactly while `now - T < 7200`
(the TTL): it is returned at `T + 7199`, is a miss at `T + 7201`, the
expired entry is deleted from the cache by that lookup, and a
`predict_yield` call at `T + 7201` recomputes (performs the external
advisory call). -/
theorem cacheTtl_boundary (input : PredictionInput) (result : PredictionResult)
    (T farmSize : ℚ) (advisory : AdvisoryOutcome) :
    (getFromCache (cacheResult initState (cacheKeyOf input) result T)
        (cacheKeyOf input) (T + 7199) =
      (some result, cacheResult initState (cacheKeyOf input) result T)) ∧
    ((getFromCache (cacheResult initState (cacheKeyOf input) result T)
        (cacheKeyOf input) (T + 7201)).1 = none) ∧
    ((getFromCache (cacheResult initState (cacheKeyOf input) result T)
        (cacheKeyOf input) (T + 7201)).2.cache = []) ∧
    (∀ now : ℚ, (getFromCache (cacheResult initState (cacheKeyOf input) result T)
        (cacheKeyOf input) now).1 = some result ↔ now - T < 7200) ∧
    ((predictYieldBody (cacheResult initState (cacheKeyOf input) result T)
        input farmSize advisory (T + 7201)).2.2 = 1) := by
  refine ⟨?_, ?_, ?_, fun now => ?_, ?_⟩
  · simp [getFromCache, cacheFind, cacheResult, cacheDelete, initState]
    norm_num
  · simp [getFromCache, cacheFind, cacheResult, cacheDelete, initState]
    norm_num
  · simp [getFromCache, cacheFind, cacheResult, cacheDelete, initState]
    norm_num
  · simp only [getFromCache, cacheFind, cacheResult, cacheDelete, initState,
      List.filter_nil, List.find?_cons, decide_eq_true_eq]
    by_cases hlt : now - T < 7200
    · simp [hlt]
    · simp [hlt]
  · simp [predictYieldBody, getFromCache, cacheFind, cacheResult, cacheDelete,
      initState]
    norm_num

/-- C9 (amended): for a known crop the blend consumes the baseline yield
already rounded to 2 decimals — the final yield is
`round(0.7 * round(raw baseline yield, 2) + 0.3 * advisory yield, 2)` —
so rounding is not purely cosmetic: the reported baseline yield feeds the
further math. -/
theorem doubleRounding_in_blend (cropType : String) (info : CropInfo)
    (soil : SoilData) (weather : WeatherData) (aiAnalysis : AiAnalysis)
    (a farmSize now : ℚ) (h : cropData cropType = some info)
    (ha : aiAnalysis.aiYieldPrediction = some a) :
    (combinePredictions (getBaselinePrediction cropType soil weather) aiAnalysis
        farmSize now).yieldPerHectare =
      pyRound 2 ((7/10) * pyRound 2 (rawBaselineYield info soil weather) +
        (3/10) * a) := by
  unfold getBaselinePrediction
  rw [h]
  simp [combinePredictions, ha, rawBaselineYield]

/-- Witness for `doubleRounding_in_blend` at maize with a fully populated
advisory analysis. -/
theorem doubleRounding_in_blend_witness :
    (combinePredictions
      (getBaselinePrediction "maize" ⟨some (13/2), none, none⟩ ⟨some 800, none⟩)
      ⟨some 4, some [], some [], some "March", some 80, some []⟩
      1 0).yieldPerHectare =
      pyRound 2 ((7/10) * pyRound 2 (rawBaselineYield ⟨6, 7, 500, 1200, 120, 2, 8⟩
        ⟨some (13/2), none, none⟩ ⟨some 800, none⟩) + (3/10) * 4) :=
  doubleRounding_in_blend "maize" ⟨6, 7, 500, 1200, 120, 2, 8⟩
    ⟨some (13/2), none, none⟩ ⟨some 800, none⟩
    ⟨some 4, some [], some [], some "March", some 80, some []⟩
    4 1 0 (by decide) rfl

/-- C9 counterexample: at maize, observed pH 5.998, rainfall 800 and
advisory yield 0.02, the raw baseline yield is 7.997, the code pipeline
(which rounds the baseline yield to 8.0 before blending) reports a final
yield of 5.61, while the reference pipeline that rounds only at
presentation reports 5.6 — so the two pipelines are not identical and the
rounding is not purely cosmetic. -/
theorem doubleRounding_counterexample :
    cropData "maize" = some ⟨6, 7, 500, 1200, 120, 2, 8⟩ ∧
    rawBaselineYield ⟨6, 7, 500, 1200, 120, 2, 8⟩ ⟨some (2999/500), none, none⟩
      ⟨some 800, none⟩ = 7997/1000 ∧
    (combinePredictions
      (getBaselinePrediction "maize" ⟨some (2999/500), none, none⟩ ⟨some 800, none⟩)
      ⟨some (1/50), some [], some [], some "t", some 50, some []⟩
      1 0).yieldPerHectare = 561/100 ∧
    specFinalYield ⟨6, 7, 500, 1200, 120, 2, 8⟩ ⟨some (2999/500), none, none⟩
      ⟨some 800, none⟩ (1/50) = 28/5 ∧
    (561/100 : ℚ) ≠ 28/5 := by
  have hph : calculatePhSuitability (2999/500) (6, 7) = 999/1000 := by
    simp only [calculatePhSuitability]
    norm_num
  have hrain : calculateRainfallSuitability 800 (500, 1200) = 1 := by
    simp only [calculateRainfallSuitability]
    norm_num
  have hraw : rawBaselineYield ⟨6, 7, 500, 1200, 120, 2, 8⟩
      ⟨some (2999/500), none, none⟩ ⟨some 800, none⟩ = 7997/1000 := by
    simp only [rawBaselineYield, Option.getD_some]
    rw [hph, hrain]
    norm_num
  have hpy8 : pyRound 2 (7997/1000) = 8 := by
    rw [pyRound_eq_of_gt_half 2 (7997/1000) 799 (by norm_num) (by norm_num)]
    norm_num
  have hyield : (getBaselinePrediction "maize" ⟨some (2999/500), none, none⟩
      ⟨some 800, none⟩).predictedYieldTonsPerHectare = 8 := by
    simp only [getBaselinePrediction, cropData, Option.getD_some]
    norm_num
    rw [hph, hrain]
    rw [show (2 + 6 * ((999/1000 + 1) / 2) : ℚ) = 7997/1000 by norm_num, hpy8]
  have hcode : pyRound 2 ((7/10) * 8 + (3/10) * (1/50)) = 561/100 := by
    rw [show ((7/10) * 8 + (3/10) * (1/50) : ℚ) = 2803/500 by norm_num,
      pyRound_eq_of_gt_half 2 (2803/500) 560 (by norm_num) (by norm_num)]
    norm_num
  have hspec : pyRound 2 ((7/10) * (7997/1000) + (3/10) * (1/50)) = 28/5 := by
    rw [show ((7/10) * (7997/1000) + (3/10) * (1/50) : ℚ) = 56039/10000 by norm_num,
      pyRound_eq_of_lt_half 2 (56039/10000) 560 (by norm_num) (by norm_num)]
    norm_num
  refine ⟨by decide, hraw, ?_, ?_, by norm_num⟩
  · simp only [combinePredictions, Option.getD_some, hyield]
    exact hcode
  · simp only [specFinalYield, hraw]
    exact hspec

end NutriGuard
